import Mathlib

/-!
Shallow embedding of `career_advisor.py` from the ai-career-navigator
repository, together with proofs about its skill-gap analyzer, chat
fallback, and dataset loader.

Modelling conventions:
* Python strings are Lean `String`s; per-character work happens on `String.data`.
* Python sets of strings are modelled as duplicate-free lists (`List.dedup`);
  only membership and cardinality of those sets are ever consumed downstream.
* `str.strip()` / `str.lower()` are modelled on the character ranges the
  claims exercise: `pyStrip` strips exactly Python's Unicode whitespace set,
  and `pyLower` lowercases ASCII letters (other code points are untouched).
* `sorted(...)` on strings is insertion sort by code-point lexicographic
  order (`StrLe`), the order Python uses on `str`.
* The pandas frame of `load_role_skills` is a list of rows; a read/parse
  failure of `pd.read_csv` is an `Except.error` input; a missing (NaN) cell
  is `Option.none`.
* The coverage percentage `int((len(matches) / len(required)) * 100)` is
  modelled with exact integer arithmetic `matches * 100 / required`
  (floor); the source computes it through double-precision floats, which
  deviates from the exact floor at some inputs (see `c2` below).
-/

namespace CareerAdvisor

set_option maxRecDepth 8192

/-- Characters stripped by Python `str.strip()`: the Unicode whitespace set
used by `str.isspace` (CPython `Py_UNICODE_ISSPACE`). -/
def isPySpace (c : Char) : Bool :=
  decide (c.toNat = 32 ∨ (9 ≤ c.toNat ∧ c.toNat ≤ 13) ∨ (28 ≤ c.toNat ∧ c.toNat ≤ 31) ∨
    c.toNat = 133 ∨ c.toNat = 160 ∨ c.toNat = 5760 ∨
    (8192 ≤ c.toNat ∧ c.toNat ≤ 8202) ∨ c.toNat = 8232 ∨ c.toNat = 8233 ∨
    c.toNat = 8239 ∨ c.toNat = 8287 ∨ c.toNat = 12288)

/-- Leading and trailing whitespace removal on the character list:
`l.dropWhile` for the front, `l.rdropWhile` for the back. -/
def pyStripList (l : List Char) : List Char :=
  (l.dropWhile isPySpace).rdropWhile isPySpace

/-- Model of Python `str.strip()` (no arguments). -/
def pyStrip (s : String) : String := String.mk (pyStripList s.data)

/-- Model of Python `str.lower()` on one character (ASCII letters only;
other code points are returned unchanged). -/
def pyLowerChar (c : Char) : Char :=
  if 65 ≤ c.toNat ∧ c.toNat ≤ 90 then Char.ofNat (c.toNat + 32) else c

/-- Model of Python `str.lower()`. -/
def pyLower (s : String) : String := String.mk (s.data.map pyLowerChar)

/-- One step of splitting on a comma, used by `splitComma` via `foldr`.
The accumulator always holds at least one (possibly empty) current field. -/
def splitCommaStep (c : Char) (acc : List (List Char)) : List (List Char) :=
  match acc with
  | [] => if c = ',' then [[], []] else [[c]]
  | t :: r => if c = ',' then [] :: t :: r else (c :: t) :: r

/-- Model of Python `s.split(",")`: split on every comma, keeping empty
fields; the empty string yields `[""]`. -/
def splitComma (s : String) : List String :=
  (s.data.foldr splitCommaStep [[]]).map String.mk

/-- Model of the comprehension
`[s.strip().lower() for s in csv.split(",") if s.strip()]` (before the
enclosing `set(...)` removes duplicates). -/
def parseSkillsList (csv : String) : List String :=
  ((splitComma csv).filter (fun s => decide (pyStrip s ≠ ""))).map
    (fun s => pyLower (pyStrip s))

/-- Model of `{s.strip().lower() for s in user_skills_csv.split(",") if s.strip()}`:
the parsed tokens with duplicates removed. -/
def userSet (csv : String) : List String := (parseSkillsList csv).dedup

/-- Model of `role = (target_role or "data analyst").strip().lower()`.
Note the default applies only when `target_role` is the empty string,
before any stripping happens. -/
def roleUsed (target_role : String) : String :=
  pyLower (pyStrip (if target_role = "" then "data analyst" else target_role))

/-- One row of the role-skills table consumed by `analyze_skill_gaps`
(the shape the spec calls RoleSkillsTable: both cells are strings). -/
structure Row where
  role : String
  skills : String
deriving DecidableEq

/-- Model of selecting the rows whose `role` column equals the normalized
role and unioning their parsed `skills` strings into one set. -/
def requiredFromTable (table : List Row) (role : String) : List String :=
  ((table.filter (fun r => decide (r.role = role))).foldr
    (fun r acc => parseSkillsList r.skills ++ acc) []).dedup

/-- The hardcoded default skill set of `analyze_skill_gaps`, in source order. -/
def defaultSkills : List String :=
  ["python", "sql", "statistics", "excel", "data visualization", "etl",
   "power bi", "tableau"]

/-- Model of `if not required: required = {...default...}`. -/
def requiredSkills (table : List Row) (role : String) : List String :=
  if requiredFromTable table role = [] then defaultSkills
  else requiredFromTable table role

/-- Code-point lexicographic comparison of character lists, the order
Python uses to compare strings. -/
def lexLe : List Char → List Char → Bool
  | [], _ => true
  | _ :: _, [] => false
  | a :: as, b :: bs => if a = b then lexLe as bs else decide (a < b)

/-- Boolean string comparison matching Python `<=` on `str`. -/
def strLe (a b : String) : Bool := lexLe a.data b.data

/-- Propositional form of `strLe`, used as the sorting relation. -/
def StrLe (a b : String) : Prop := strLe a b = true

instance : DecidableRel StrLe := fun a b =>
  inferInstanceAs (Decidable (strLe a b = true))

/-- Model of Python `sorted(...)` on a list of strings. -/
def sortStrings (l : List String) : List String := l.insertionSort StrLe

/-- Result record of `analyze_skill_gaps` (the dict the source returns). -/
structure GapAnalysisResult where
  target_role : String
  have_skills : List String
  missing_skills : List String
  coverage_percent : Nat
deriving DecidableEq

/-- Model of `matches = sorted(list(required & user))`. -/
def haveSkills (csv tr : String) (t : List Row) : List String :=
  sortStrings ((requiredSkills t (roleUsed tr)).filter
    (fun s => decide (s ∈ userSet csv)))

/-- Model of `gaps = sorted(list(required - user))`. -/
def missingSkills (csv tr : String) (t : List Row) : List String :=
  sortStrings ((requiredSkills t (roleUsed tr)).filter
    (fun s => decide (s ∉ userSet csv)))

/-- Model of `coverage = 0 if not required else int((len(matches) / len(required)) * 100)`,
with the float expression replaced by exact floor division (see module header). -/
def coveragePercent (csv tr : String) (t : List Row) : Nat :=
  if requiredSkills t (roleUsed tr) = [] then 0
  else (haveSkills csv tr t).length * 100 / (requiredSkills t (roleUsed tr)).length

/-- Model of `analyze_skill_gaps(user_skills_csv, target_role, role_skills_df)`. -/
def analyze_skill_gaps (user_skills_csv target_role : String) (t : List Row) :
    GapAnalysisResult :=
  ⟨roleUsed target_role, haveSkills user_skills_csv target_role t,
   missingSkills user_skills_csv target_role t,
   coveragePercent user_skills_csv target_role t⟩

/-- One chat message `{"role": ..., "content": ...}` sent to a provider. -/
structure ChatMessage where
  role : String
  content : String
deriving DecidableEq

/-- The request either provider client receives: model identifier, the
two-message exchange, and the fixed sampling temperature. -/
structure ChatRequest where
  model : String
  messages : List ChatMessage
  temperature : ℚ
deriving DecidableEq

/-- The fixed system instruction of `_chat`. -/
def systemMessage : ChatMessage :=
  ⟨"system", "You are an expert AI career mentor for students."⟩

/-- The module-level default model identifier `_MODEL`. -/
def _MODEL : String := "llama-3.1-8b-instant"

/-- First line of the canned fallback of `_chat` (the source file stores the
em dash as the mojibake bytes U+00E2 U+20AC U+201D, reproduced verbatim). -/
def fallbackHeader : String :=
  "**(Fallback) Career Advisor â€” overview**\n\n"

/-- Second part of the canned fallback of `_chat`. -/
def fallbackBody : String :=
  "I don\u0027t have access to Groq or OpenAI (no API keys or packages installed). Here\u0027s a short example output based on the provided profile prompt.\n\n"

/-- Static example career-path summary closing the canned fallback. -/
def fallbackExample : String :=
  "- Suggested roles: Data Analyst, Business Analyst, ML Engineer\n- Why fit: Matches skills and interests; entry-level friendly\n- Must-have skills: Python, SQL, Data Visualization\n- Starter projects: Sales dashboard, EDA on public dataset, simple ML model\n- Compensation (INR): 3.0L - 7.0L (entry-level, approximate)\n"

/-- The full deterministic string `_chat` returns when no provider client
is available. -/
def fallbackReply : String := fallbackHeader ++ fallbackBody ++ fallbackExample

/-- Model of `_chat(prompt, model)`. The module-level clients
`groq_client` / `openai_client` become explicit parameters: `none` models an
unavailable client, `some f` models a constructed client whose chat endpoint
answers a request with a string. -/
def _chat (groq_client openai_client : Option (ChatRequest → String))
    (prompt : String) (model : Option String) : String :=
  let m := match model with
    | none => _MODEL
    | some s => if s = "" then _MODEL else s
  match groq_client with
  | some g => g ⟨m, [systemMessage, ⟨"user", prompt⟩], 0.4⟩
  | none =>
    match openai_client with
    | some o => o ⟨"gpt-4o-mini", [systemMessage, ⟨"user", prompt⟩], 0.4⟩
    | none => fallbackReply

/-- The f-string prompt of `get_career_paths`, with the four profile fields
interpolated. -/
def careerPathsPrompt (skills interests education experience : String) : String :=
  "\n    Profile:\n    - Education: " ++ education ++
  "\n    - Experience: " ++ experience ++
  "\n    - Skills: " ++ skills ++
  "\n    - Interests: " ++ interests ++
  "\n\n    Task: Suggest 4-6 high-demand career paths suitable for the profile in India, with for each:\n    - What the role does (1-2 lines)\n    - Why it\u0027s a fit for this profile\n    - 3 must-have skills\n    - Typical starter projects\n    - Entry-level compensation range (INR, realistic)\n    Format as markdown with headings and bullet points.\n    "

/-- Model of `get_career_paths(skills, interests, education, experience)`. -/
def get_career_paths (groq_client openai_client : Option (ChatRequest → String))
    (skills interests education experience : String) : String :=
  _chat groq_client openai_client
    (careerPathsPrompt skills interests education experience) none

/-- The f-string prompt of `get_learning_plan`, with fields interpolated and
the inline default `{target_role or 'Data Analyst'}`. -/
def learningPlanPrompt (skills interests duration target_role : String) : String :=
  "\n    Create a step-by-step learning plan to become a strong " ++
  (if target_role = "" then "Data Analyst" else target_role) ++
  " in " ++ duration ++
  ".\n    Student\u0027s current skills: " ++ skills ++
  "\n    Interests: " ++ interests ++
  "\n    Structure:\n    - Phases with timelines (Week 1-2, etc.)\n    - Exact outcomes and checkpoints\n    - Free resources (YouTube, docs, datasets, practice sites)\n    - 3 portfolio projects with acceptance criteria and how to present results\n    Keep it concise, actionable, and India-centric.\n    "

/-- Model of `get_learning_plan(skills, interests, duration, target_role)`. -/
def get_learning_plan (groq_client openai_client : Option (ChatRequest → String))
    (skills interests duration target_role : String) : String :=
  _chat groq_client openai_client
    (learningPlanPrompt skills interests duration target_role) none

/-- One raw row as `pd.read_csv` would deliver it to `load_role_skills`:
either cell may be missing (NaN), modelled by `none`. -/
structure RawRow where
  role : Option String
  skills : Option String
deriving DecidableEq

/-- One row after the normalization in `load_role_skills`: the `role` cell
went through `.str.strip().str.lower()` (which leaves a missing cell
missing), the `skills` cell through `.fillna('').astype(str)`. -/
structure LoadedRow where
  role : Option String
  skills : String
deriving DecidableEq

/-- Model of `load_role_skills()`. The outcome of `pd.read_csv(DATA_PATH)`
is the explicit input: `Except.error` models any read, parse, or schema
failure (swallowed by the bare `except`, which returns the empty frame
`pd.DataFrame(columns=["role","skills"])`), `Except.ok rows` a parsed file. -/
def load_role_skills (source : Except Unit (List RawRow)) : List LoadedRow :=
  match source with
  | Except.error _ => []
  | Except.ok rows =>
    rows.map (fun r => ⟨r.role.map (fun s => pyLower (pyStrip s)), r.skills.getD ""⟩)

/-- Statement that a string contains no ASCII uppercase letter. -/
def NoAsciiUpper (s : String) : Prop :=
  ∀ c ∈ s.data, ¬(65 ≤ c.toNat ∧ c.toNat ≤ 90)

instance (s : String) : Decidable (NoAsciiUpper s) :=
  inferInstanceAs (Decidable (∀ c ∈ s.data, ¬(65 ≤ c.toNat ∧ c.toNat ≤ 90)))

/-- Totality of the code-point lexicographic comparison. -/
theorem lexLe_total : ∀ a b : List Char, lexLe a b = true ∨ lexLe b a = true
  | [], _ => Or.inl rfl
  | _ :: _, [] => Or.inr rfl
  | a :: as, b :: bs => by
    by_cases h : a = b
    · subst h
      simpa [lexLe] using lexLe_total as bs
    · rcases lt_trichotomy a b with hlt | heq | hgt
      · left; simp [lexLe, h, hlt]
      · exact absurd heq h
      · right; simp [lexLe, Ne.symm h, hgt]

/-- Transitivity of the code-point lexicographic comparison. -/
theorem lexLe_trans : ∀ a b c : List Char,
    lexLe a b = true → lexLe b c = true → lexLe a c = true
  | [], _, _, _, _ => rfl
  | _ :: _, [], _, h1, _ => by simp [lexLe] at h1
  | _ :: _, _ :: _, [], _, h2 => by simp [lexLe] at h2
  | a :: as, b :: bs, c :: cs, h1, h2 => by
    by_cases hab : a = b
    · subst hab
      by_cases hac : a = c
      · subst hac
        simp only [lexLe, if_pos rfl] at h1 h2 ⊢
        exact lexLe_trans as bs cs h1 h2
      · simp only [lexLe, if_pos rfl, if_neg hac] at h1 h2 ⊢
        exact h2
    · have hab' : a < b := by simpa [lexLe, hab] using h1
      by_cases hbc : b = c
      · subst hbc
        simp [lexLe, hab, hab']
      · have hbc' : b < c := by simpa [lexLe, hbc] using h2
        have hac : a < c := lt_trans hab' hbc'
        simp [lexLe, ne_of_lt hac, hac]

instance : IsTotal String StrLe := ⟨fun a b => lexLe_total a.data b.data⟩

instance : IsTrans String StrLe := ⟨fun a b c => lexLe_trans a.data b.data c.data⟩

/-- Sorting is a permutation of its input. -/
theorem sortStrings_perm (l : List String) : (sortStrings l).Perm l :=
  List.perm_insertionSort _ _

/-- Sorting does not change the underlying finite set. -/
theorem toFinset_sortStrings (l : List String) :
    (sortStrings l).toFinset = l.toFinset :=
  List.toFinset_eq_of_perm _ _ (sortStrings_perm l)

/-- Sorting does not change the length. -/
theorem length_sortStrings (l : List String) : (sortStrings l).length = l.length :=
  (sortStrings_perm l).length_eq

/-- Output of `sortStrings` is sorted with respect to `StrLe`. -/
theorem sorted_sortStrings (l : List String) : List.Sorted StrLe (sortStrings l) :=
  List.sorted_insertionSort _ _

/-- Head of a `dropWhile` result falsifies the predicate. -/
theorem dropWhile_cons_head_false {α : Type} (p : α → Bool) :
    ∀ (l : List α) (a : α) (rest : List α),
      l.dropWhile p = a :: rest → p a = false
  | [], _, _, h => by simp at h
  | x :: xs, a, rest, h => by
    by_cases hx : p x
    · rw [List.dropWhile_cons, if_pos hx] at h
      exact dropWhile_cons_head_false p xs a rest h
    · rw [List.dropWhile_cons, if_neg hx] at h
      cases h
      exact Bool.eq_false_iff.mpr hx

/-- Stripping whitespace from both ends is idempotent. -/
theorem pyStripList_idem (l : List Char) :
    pyStripList (pyStripList l) = pyStripList l := by
  unfold pyStripList
  rcases hcase : (l.dropWhile isPySpace).rdropWhile isPySpace with _ | ⟨a, rest⟩
  · rfl
  · have hpre := List.rdropWhile_prefix isPySpace (l.dropWhile isPySpace)
    rw [hcase] at hpre
    obtain ⟨t, ht⟩ := hpre
    have hfalse : isPySpace a = false :=
      dropWhile_cons_head_false isPySpace l a (rest ++ t) ht.symm
    rw [List.dropWhile_cons, if_neg (by simp [hfalse]), ← hcase,
      List.rdropWhile_idempotent]

/-- Model of the fact that `strip` of an already stripped string changes nothing. -/
theorem pyStrip_pyStrip (s : String) : pyStrip (pyStrip s) = pyStrip s :=
  congrArg String.mk (pyStripList_idem s.data)

/-- Valid code points survive the `Char.ofNat` round trip. -/
theorem toNat_ofNat_valid (n : Nat) (h : n.isValidChar) :
    (Char.ofNat n).toNat = n := by
  unfold Char.ofNat
  rw [dif_pos h]
  simp [Char.ofNatAux, Char.toNat, UInt32.toNat]

/-- Lowercasing a character does not change whether it is Python whitespace. -/
theorem isPySpace_pyLowerChar (c : Char) :
    isPySpace (pyLowerChar c) = isPySpace c := by
  unfold pyLowerChar
  split
  · rename_i h
    have ht : (Char.ofNat (c.toNat + 32)).toNat = c.toNat + 32 :=
      toNat_ofNat_valid _ (Or.inl (by omega))
    unfold isPySpace
    rw [ht, decide_eq_decide]
    constructor <;> intro hx <;> omega
  · rfl

/-- Stripping commutes with ASCII lowercasing on the character list. -/
theorem pyStripList_map_pyLowerChar (l : List Char) :
    pyStripList (l.map pyLowerChar) = (pyStripList l).map pyLowerChar := by
  have hcomp : (isPySpace ∘ pyLowerChar) = isPySpace := funext isPySpace_pyLowerChar
  unfold pyStripList List.rdropWhile
  rw [List.dropWhile_map, hcomp, ← List.map_reverse, List.dropWhile_map, hcomp,
    ← List.map_reverse]

/-- Stripping after lowercasing an already stripped string changes nothing. -/
theorem pyStrip_pyLower_pyStrip (s : String) :
    pyStrip (pyLower (pyStrip s)) = pyLower (pyStrip s) := by
  show String.mk (pyStripList ((pyStripList s.data).map pyLowerChar))
      = String.mk ((pyStripList s.data).map pyLowerChar)
  rw [pyStripList_map_pyLowerChar, pyStripList_idem]

/-- Output of `pyLower` never contains an ASCII uppercase letter. -/
theorem noAsciiUpper_pyLower (s : String) : NoAsciiUpper (pyLower s) := by
  intro c hc
  obtain ⟨d, _, rfl⟩ := List.mem_map.1 hc
  unfold pyLowerChar
  split
  · rename_i h
    have ht : (Char.ofNat (d.toNat + 32)).toNat = d.toNat + 32 :=
      toNat_ofNat_valid _ (Or.inl (by omega))
    rw [ht]
    omega
  · rename_i h
    exact h

/-- Required skill list is never empty: the default substitutes for an empty
table union. -/
theorem requiredSkills_ne_nil (t : List Row) (role : String) :
    requiredSkills t role ≠ [] := by
  unfold requiredSkills
  split
  · simp [defaultSkills]
  · rename_i h
    exact h

/-- Kept skills are, as a set, the intersection of required and user skills. -/
theorem haveSkills_toFinset (csv tr : String) (t : List Row) :
    (haveSkills csv tr t).toFinset
      = (requiredSkills t (roleUsed tr)).toFinset ∩ (userSet csv).toFinset := by
  unfold haveSkills
  rw [toFinset_sortStrings, List.toFinset_filter]
  ext a
  simp

/-- Missing skills are, as a set, the difference of required and user skills. -/
theorem missingSkills_toFinset (csv tr : String) (t : List Row) :
    (missingSkills csv tr t).toFinset
      = (requiredSkills t (roleUsed tr)).toFinset \ (userSet csv).toFinset := by
  unfold missingSkills
  rw [toFinset_sortStrings, List.toFinset_filter]
  ext a
  simp

/-- C1 (counterexample): the whitespace-only target role " " trims and
lowercases to the empty string, yet the role used for lookup and returned in
the result is "" and not "data analyst", because the source applies the
`or`-default before stripping. -/
theorem c1_counterexample_whitespace_role :
    pyLower (pyStrip " ") = ""
    ∧ (analyze_skill_gaps "" " " []).target_role = ""
    ∧ (analyze_skill_gaps "" " " []).target_role ≠ "data analyst" :=
  ⟨by decide, by decide, by decide⟩

/-- C1 (amended): the default "data analyst" substitutes only when
`target_role` is exactly the empty string (the check happens before
trimming); any other input is trimmed and lowercased and used as is, so a
whitespace-only target role yields the empty role. -/
theorem c1_default_only_for_empty_string (csv tr : String) (t : List Row) :
    (tr = "" → (analyze_skill_gaps csv tr t).target_role = "data analyst")
    ∧ (pyStrip tr ≠ "" →
        (analyze_skill_gaps csv tr t).target_role = pyLower (pyStrip tr))
    ∧ (tr ≠ "" → pyStrip tr = "" →
        (analyze_skill_gaps csv tr t).target_role = "") := by
  refine ⟨?_, ?_, ?_⟩
  · intro h
    subst h
    show roleUsed "" = "data analyst"
    decide
  · intro h
    have htr : tr ≠ "" := by
      intro e
      subst e
      exact h (by decide)
    show roleUsed tr = pyLower (pyStrip tr)
    unfold roleUsed
    rw [if_neg htr]
  · intro h1 h2
    show roleUsed tr = ""
    unfold roleUsed
    rw [if_neg h1, h2]
    decide

/-- C1 (witness): the amended statement evaluated at the empty, a padded,
and a whitespace-only target role. -/
theorem c1_default_only_for_empty_string_witness :
    (analyze_skill_gaps "" "" []).target_role = "data analyst"
    ∧ (analyze_skill_gaps "" " Data Analyst " []).target_role
        = pyLower (pyStrip " Data Analyst ")
    ∧ (analyze_skill_gaps "" " " []).target_role = "" :=
  ⟨(c1_default_only_for_empty_string "" "" []).1 rfl,
   (c1_default_only_for_empty_string "" " Data Analyst " []).2.1 (by decide),
   (c1_default_only_for_empty_string "" " " []).2.2 (by decide) (by decide)⟩

/-- Fifty distinct comma-separated skill tokens, the skills cell of the C2
failing input. -/
def fiftySkillsCsv : String :=
  "a01, a02, a03, a04, a05, a06, a07, a08, a09, a10, a11, a12, a13, a14, a15, a16, a17, a18, a19, a20, a21, a22, a23, a24, a25, a26, a27, a28, a29, a30, a31, a32, a33, a34, a35, a36, a37, a38, a39, a40, a41, a42, a43, a44, a45, a46, a47, a48, a49, a50"

/-- Twenty-nine of the fifty skills, the user cell of the C2 failing input. -/
def twentyNineSkillsCsv : String :=
  "a01, a02, a03, a04, a05, a06, a07, a08, a09, a10, a11, a12, a13, a14, a15, a16, a17, a18, a19, a20, a21, a22, a23, a24, a25, a26, a27, a28, a29"

/-- C2: in the exact-arithmetic embedding the coverage percentage is the
floor of `100 * |have| / |required|` and lies in [0, 100]; evaluated at a
fifty-skill role of which the user holds twenty-nine, the exact floor is 58,
whereas the source's double-precision expression `int((29/50)*100)`
evaluates to 57 there. -/
theorem c2_coverage_floor_exact :
    (∀ (csv tr : String) (t : List Row),
      (analyze_skill_gaps csv tr t).coverage_percent
        = (analyze_skill_gaps csv tr t).have_skills.length * 100
            / (requiredSkills t (roleUsed tr)).length
      ∧ (analyze_skill_gaps csv tr t).coverage_percent ≤ 100)
    ∧ (analyze_skill_gaps twentyNineSkillsCsv "data analyst"
        [⟨"data analyst", fiftySkillsCsv⟩]).coverage_percent = 58 := by
  constructor
  · intro csv tr t
    have hne := requiredSkills_ne_nil t (roleUsed tr)
    have hpos : 0 < (requiredSkills t (roleUsed tr)).length :=
      List.length_pos.mpr hne
    constructor
    · show coveragePercent csv tr t = _
      unfold coveragePercent
      rw [if_neg hne]
      rfl
    · show coveragePercent csv tr t ≤ 100
      unfold coveragePercent
      rw [if_neg hne]
      have hle : (haveSkills csv tr t).length
          ≤ (requiredSkills t (roleUsed tr)).length := by
        unfold haveSkills
        rw [length_sortStrings]
        exact List.length_filter_le _ _
      calc (haveSkills csv tr t).length * 100
            / (requiredSkills t (roleUsed tr)).length
          ≤ (requiredSkills t (roleUsed tr)).length * 100
            / (requiredSkills t (roleUsed tr)).length :=
            Nat.div_le_div_right (Nat.mul_le_mul_right _ hle)
        _ = 100 := by
            rw [Nat.mul_comm]
            exact Nat.mul_div_cancel _ hpos
  · decide

/-- C3: kept and missing skills partition the required set — their union is
the required set, their intersection is empty, they are intersection and
difference with the user set, and both lists are sorted ascending. -/
theorem c3_partition_and_sorted (csv tr : String) (t : List Row) :
    (analyze_skill_gaps csv tr t).have_skills.toFinset
        = (requiredSkills t (roleUsed tr)).toFinset ∩ (userSet csv).toFinset
    ∧ (analyze_skill_gaps csv tr t).missing_skills.toFinset
        = (requiredSkills t (roleUsed tr)).toFinset \ (userSet csv).toFinset
    ∧ (analyze_skill_gaps csv tr t).have_skills.toFinset
        ∪ (analyze_skill_gaps csv tr t).missing_skills.toFinset
        = (requiredSkills t (roleUsed tr)).toFinset
    ∧ (analyze_skill_gaps csv tr t).have_skills.toFinset
        ∩ (analyze_skill_gaps csv tr t).missing_skills.toFinset
        = (∅ : Finset String)
    ∧ List.Sorted StrLe (analyze_skill_gaps csv tr t).have_skills
    ∧ List.Sorted StrLe (analyze_skill_gaps csv tr t).missing_skills := by
  refine ⟨haveSkills_toFinset csv tr t, missingSkills_toFinset csv tr t,
    ?_, ?_, sorted_sortStrings _, sorted_sortStrings _⟩
  · show (haveSkills csv tr t).toFinset ∪ (missingSkills csv tr t).toFinset = _
    rw [haveSkills_toFinset, missingSkills_toFinset]
    ext a
    simp only [Finset.mem_union, Finset.mem_inter, Finset.mem_sdiff]
    tauto
  · show (haveSkills csv tr t).toFinset ∩ (missingSkills csv tr t).toFinset = _
    rw [haveSkills_toFinset, missingSkills_toFinset]
    ext a
    simp only [Finset.mem_inter, Finset.mem_sdiff, Finset.not_mem_empty,
      iff_false]
    tauto

/-- C4: inputs whose comma fields are all whitespace parse to the empty
skill set, and the analyzer treats them exactly like the empty string; the
embedding itself is a total function, so no input raises. -/
theorem c4_malformed_inputs_degrade (csv : String)
    (h : ∀ tok ∈ splitComma csv, pyStrip tok = "") :
    parseSkillsList csv = []
    ∧ userSet csv = []
    ∧ ∀ (tr : String) (t : List Row),
        analyze_skill_gaps csv tr t = analyze_skill_gaps "" tr t := by
  have hp : parseSkillsList csv = [] := by
    unfold parseSkillsList
    have hf : (splitComma csv).filter (fun s => decide (pyStrip s ≠ "")) = [] := by
      rw [List.filter_eq_nil_iff]
      intro a ha
      simp [h a ha]
    rw [hf]
    rfl
  have hu : userSet csv = [] := by
    unfold userSet
    rw [hp]
    rfl
  refine ⟨hp, hu, fun tr t => ?_⟩
  have hu0 : userSet csv = userSet "" := hu.trans (by decide)
  unfold analyze_skill_gaps coveragePercent haveSkills missingSkills
  rw [hu0]

/-- C4 (witness): a string of commas, spaces and a no-break space parses to
nothing and analyzes like the empty string. -/
theorem c4_malformed_inputs_degrade_witness :
    (∀ tok ∈ splitComma " , , ", pyStrip tok = "")
    ∧ parseSkillsList " , , " = []
    ∧ analyze_skill_gaps " , , " "qa" [] = analyze_skill_gaps "" "qa" [] :=
  ⟨by decide, (c4_malformed_inputs_degrade " , , " (by decide)).1,
   (c4_malformed_inputs_degrade " , , " (by decide)).2.2 "qa" []⟩

/-- C5: the worked example — user "Python, SQL" against role "Data Analyst"
whose required skills are "Python, SQL, Excel, Statistics" — yields the
expected record with 50 percent coverage. -/
theorem c5_worked_example :
    analyze_skill_gaps "Python, SQL" "Data Analyst"
      [⟨"data analyst", "Python, SQL, Excel, Statistics"⟩]
    = ⟨"data analyst", ["python", "sql"], ["excel", "statistics"], 50⟩ := by
  decide

/-- C6: whenever the union of parsed skills over the matching rows is empty,
the required set is exactly the fixed eight-element default; in particular
analyzing "" against "Unknown Role" on the empty table returns no kept
skills, all eight defaults sorted ascending, and zero coverage. -/
theorem c6_default_required_set (tr : String) (t : List Row)
    (h : requiredFromTable t (roleUsed tr) = []) :
    requiredSkills t (roleUsed tr) = defaultSkills
    ∧ defaultSkills.length = 8
    ∧ analyze_skill_gaps "" "Unknown Role" []
        = ⟨"unknown role", [],
           ["data visualization", "etl", "excel", "power bi", "python", "sql",
            "statistics", "tableau"], 0⟩ := by
  refine ⟨?_, rfl, by decide⟩
  unfold requiredSkills
  rw [if_pos h]

/-- C6 (witness): the empty table has an empty union for "Unknown Role", and
the theorem then applies. -/
theorem c6_default_required_set_witness :
    requiredFromTable [] (roleUsed "Unknown Role") = []
    ∧ requiredSkills [] (roleUsed "Unknown Role") = defaultSkills :=
  ⟨by decide, (c6_default_required_set "Unknown Role" [] (by decide)).1⟩

/-- C7: with both provider clients unavailable, `_chat` — and hence
`get_career_paths` — returns the one fixed fallback string for every prompt
and model, and that string contains the literal marker "(Fallback)". -/
theorem c7_fallback_deterministic :
    (∀ (prompt : String) (model : Option String),
        _chat none none prompt model = fallbackReply)
    ∧ (∀ skills interests education experience : String,
        get_career_paths none none skills interests education experience
          = fallbackReply)
    ∧ (∃ a b : String, fallbackReply = a ++ "(Fallback)" ++ b) := by
  refine ⟨fun _ _ => rfl, fun _ _ _ _ => rfl,
    "**", " Career Advisor â€” overview**\n\n" ++ fallbackBody ++ fallbackExample,
    ?_⟩
  decide

/-- C8: the loader maps any read, parse, or schema failure to the empty
table; on success each present role cell is its own trimmed, lowercased
normal form, and each row's skills cell is the string of the raw cell with a
missing value coerced to the empty string. -/
theorem c8_loader_never_fails (rows : List RawRow) :
    load_role_skills (Except.error ()) = []
    ∧ ∀ lr ∈ load_role_skills (Except.ok rows),
        (∀ s, lr.role = some s → pyStrip s = s ∧ NoAsciiUpper s)
        ∧ ∃ r ∈ rows, lr.role = r.role.map (fun x => pyLower (pyStrip x))
            ∧ lr.skills = r.skills.getD "" := by
  refine ⟨rfl, ?_⟩
  intro lr hlr
  obtain ⟨r, hr, rfl⟩ := List.mem_map.1 hlr
  constructor
  · intro s hs
    obtain ⟨x, _, hsx⟩ := Option.map_eq_some'.1 hs
    constructor
    · rw [← hsx]
      exact pyStrip_pyLower_pyStrip x
    · rw [← hsx]
      exact noAsciiUpper_pyLower _
  · exact ⟨r, hr, rfl, rfl⟩

/-- C8 (witness): a one-row file with a padded, capitalized role and a
missing skills cell loads as the normalized role with an empty skills
string. -/
theorem c8_loader_never_fails_witness :
    (⟨some "data analyst", ""⟩ : LoadedRow)
        ∈ load_role_skills (Except.ok [⟨some " Data Analyst ", none⟩])
    ∧ pyStrip "data analyst" = "data analyst"
    ∧ NoAsciiUpper "data analyst" := by
  have h := (c8_loader_never_fails [⟨some " Data Analyst ", none⟩]).2
      ⟨some "data analyst", ""⟩ (by decide)
  exact ⟨by decide, (h.1 "data analyst" rfl).1, (h.1 "data analyst" rfl).2⟩

/-- C9: two target roles that trim and lowercase to the same non-empty
string produce identical results on every user string and table. -/
theorem c9_role_lookup_insensitive (csv r1 r2 : String) (t : List Row)
    (hnorm : pyLower (pyStrip r1) = pyLower (pyStrip r2))
    (hne : pyLower (pyStrip r1) ≠ "") :
    analyze_skill_gaps csv r1 t = analyze_skill_gaps csv r2 t := by
  have h1 : r1 ≠ "" := by
    intro e
    subst e
    exact hne (by decide)
  have h2 : r2 ≠ "" := by
    intro e
    rw [e] at hnorm
    exact hne (hnorm.trans (by decide))
  have hr : roleUsed r1 = roleUsed r2 := by
    unfold roleUsed
    rw [if_neg h1, if_neg h2]
    exact hnorm
  unfold analyze_skill_gaps coveragePercent haveSkills missingSkills
  rw [hr]

/-- C9 (witness): " Data Analyst " and "data analyst" normalize alike and
give identical results on the example table. -/
theorem c9_role_lookup_insensitive_witness :
    (pyLower (pyStrip " Data Analyst ") = pyLower (pyStrip "data analyst")
      ∧ pyLower (pyStrip " Data Analyst ") ≠ "")
    ∧ analyze_skill_gaps "Python, SQL" " Data Analyst "
        [⟨"data analyst", "Python, SQL, Excel, Statistics"⟩]
      = analyze_skill_gaps "Python, SQL" "data analyst"
        [⟨"data analyst", "Python, SQL, Excel, Statistics"⟩] :=
  ⟨⟨by decide, by decide⟩,
   c9_role_lookup_insensitive "Python, SQL" " Data Analyst " "data analyst"
     [⟨"data analyst", "Python, SQL, Excel, Statistics"⟩] (by decide) (by decide)⟩

/-- C10: the returned target role is always the normalized role used for
lookup: it contains no ASCII uppercase letter and no leading or trailing
whitespace. -/
theorem c10_target_role_normalized (csv tr : String) (t : List Row) :
    NoAsciiUpper (analyze_skill_gaps csv tr t).target_role
    ∧ pyStrip (analyze_skill_gaps csv tr t).target_role
        = (analyze_skill_gaps csv tr t).target_role :=
  ⟨noAsciiUpper_pyLower _, pyStrip_pyLower_pyStrip _⟩

end CareerAdvisor
